import Mathlib

/-!
Verification of the photo-app multi-category auto-classification and
folder-fanout engine.

The definitions below are a shallow embedding of the JavaScript source:

* `src/services/collectionSync.js` — `CollectionSync.addImageToCollections`,
  `CollectionSync.removeImageFromCollections` (MongoDB collections are
  modelled as lists of documents; `findOneAndUpdate` with `upsert` updates
  the first document matching the key or inserts a fresh one;
  `updateMany({})` applies its update to every document; `deleteMany`
  filters documents out).
* `src/unnamed/part_001` — the improved `ImageProcessor`
  (`containsKeyword`, `determineCategories`, `classifyByEmbedding`,
  `findOrCreatePersonId`, `generateEmbeddingSignature`,
  `calculateSimilarity`, `analyzeFilename`, `analyzeEmbedding`,
  `getAllFolderPaths`, `determineFolderPath`).
* `src/services/imageProcessor.old.js` — the legacy
  `ImageProcessor.determineFolderPath` (priority chain).

JavaScript numbers are idealised as exact rationals `ℚ` (reals `ℝ` where
`Math.sqrt` is involved); the IEEE value NaN, which the source can produce
by dividing by zero, is modelled explicitly as `none` in `Option ℚ`.
JavaScript string truthiness (`if (s)`) is `s ≠ ""` for strings and
`≠ null ∧ ≠ ""` for nullable strings.
-/

/-- The `autoTags` record produced by the classifier: a nullable person id,
three independent category booleans and a list of descriptive tokens. -/
structure AutoTags where
  person_id : Option String
  nature : Bool
  pets : Bool
  vehicle : Bool
  objects : List String
deriving DecidableEq, Repr

/-- The part of an `imageData` record that the fanout/sync layer inspects:
its filename (the dedup key of the claims) and its `autoTags`.  The other
fields (`originalName`, `filepath`, `size`, …) are carried opaquely by the
source and play no role in the claimed properties. -/
structure ImageData where
  filename : String
  autoTags : AutoTags
deriving DecidableEq, Repr

/-- One category document as persisted by `collectionSync.js`:
`key` is the `personId` (Person collection) or the `category` field
(Pet/Nature/Vehicle collections), `images` the embedded record array and
`imageCount` the `metadata.imageCount` counter. -/
structure CatDoc where
  key : String
  images : List ImageData
  imageCount : ℤ
deriving DecidableEq, Repr

/-- The four category collections of the document store. -/
structure DB where
  persons : List CatDoc
  pets : List CatDoc
  nature : List CatDoc
  vehicles : List CatDoc
deriving DecidableEq, Repr

/-- JavaScript truthiness of a nullable string (`if (autoTags.person_id)`):
`null` and the empty string are falsy. -/
def jsTruthy : Option String → Bool
  | none => false
  | some s => s != ""

/-- JavaScript `s.trim()`: strip whitespace from both ends of the string.
(Defined by structural recursion over the character list so that it
evaluates on literals; `Char.isWhitespace` plays the role of the JS
whitespace class.) -/
def jsTrim (s : String) : String :=
  ⟨((s.data.dropWhile Char.isWhitespace).reverse.dropWhile Char.isWhitespace).reverse⟩

namespace CollectionSync

/-- `Model.findOneAndUpdate({key}, {$push: images, $inc: imageCount}, {upsert:true})`:
update the first document whose key matches, pushing the record and
incrementing the counter; if none matches, insert a fresh document holding
just this record with count 1 (the `$setOnInsert` fields fix the key). -/
def upsertPush : List CatDoc → String → ImageData → List CatDoc
  | [], key, img => [⟨key, [img], 1⟩]
  | d :: rest, key, img =>
    if d.key = key then ⟨d.key, d.images ++ [img], d.imageCount + 1⟩ :: rest
    else d :: upsertPush rest key img

/-- `CollectionSync.addImageToCollections(imageData)` from
`src/services/collectionSync.js` lines 7–74.  Each truthy flag of
`imageData.autoTags` unconditionally `$push`es the record into the matching
collection document (upserting it) and `$inc`s its `imageCount`; if no flag
was truthy the record lands in the Nature collection under the
`uncategorized` key.  Returns the new store and the `results.addedTo` list
(no error path exists in this pure model). -/
def addImageToCollections (db : DB) (imageData : ImageData) : DB × List String :=
  let persons1 :=
    if jsTruthy imageData.autoTags.person_id then
      upsertPush db.persons (imageData.autoTags.person_id.getD "") imageData
    else db.persons
  let added1 : List String := if jsTruthy imageData.autoTags.person_id then ["Person"] else []
  let pets1 :=
    if imageData.autoTags.pets then upsertPush db.pets "pet" imageData else db.pets
  let added2 : List String := if imageData.autoTags.pets then ["Pet"] else []
  let nature1 :=
    if imageData.autoTags.nature then upsertPush db.nature "nature" imageData else db.nature
  let added3 : List String := if imageData.autoTags.nature then ["Nature"] else []
  let vehicles1 :=
    if imageData.autoTags.vehicle then upsertPush db.vehicles "vehicle" imageData else db.vehicles
  let added4 : List String := if imageData.autoTags.vehicle then ["Vehicle"] else []
  let addedTo := added1 ++ added2 ++ added3 ++ added4
  if addedTo = [] then
    (⟨persons1, pets1, upsertPush nature1 "uncategorized" imageData, vehicles1⟩,
      ["Nature (uncategorized)"])
  else
    (⟨persons1, pets1, nature1, vehicles1⟩, addedTo)

/-- `Model.updateMany({}, {$pull: {images: {filename}}, $inc: {imageCount: -1}})`:
the empty filter matches every document, so every document has all records
with this filename pulled out of `images` and its `imageCount` decremented
— whether or not it contained the filename. -/
def pullAndDec (docs : List CatDoc) (filename : String) : List CatDoc :=
  docs.map (fun d =>
    ⟨d.key, d.images.filter (fun img => img.filename != filename), d.imageCount - 1⟩)

/-- `Model.deleteMany({'metadata.imageCount': {$lte: 0}})`: drop every
document whose counter is ≤ 0. -/
def deleteNonPositive (docs : List CatDoc) : List CatDoc :=
  docs.filter (fun d => decide (0 < d.imageCount))

/-- `CollectionSync.removeImageFromCollections(filename)` from
`src/services/collectionSync.js` lines 76–92: four `updateMany({})` calls
(pull + unconditional decrement on every document of every collection)
followed by four `deleteMany({imageCount ≤ 0})` calls. -/
def removeImageFromCollections (db : DB) (filename : String) : DB :=
  let persons1 := pullAndDec db.persons filename
  let pets1 := pullAndDec db.pets filename
  let nature1 := pullAndDec db.nature filename
  let vehicles1 := pullAndDec db.vehicles filename
  ⟨deleteNonPositive persons1, deleteNonPositive pets1,
    deleteNonPositive nature1, deleteNonPositive vehicles1⟩

end CollectionSync

namespace ImageProcessor

/-! ### Keyword dictionaries (`KEYWORDS` in `src/unnamed/part_001`) -/

def KEYWORDS.vehicle.types : List String :=
  ["car", "vehicle", "auto", "automobile", "truck", "bike", "bicycle", "motorcycle", "motorbike",
   "bus", "van", "suv", "jeep", "taxi", "cab", "scooter", "moped", "tractor", "trailer",
   "ambulance", "firetruck", "police", "lorry", "pickup", "sedan", "hatchback", "convertible",
   "coupe", "wagon", "minivan", "limousine", "roadster", "sports car"]

def KEYWORDS.vehicle.brands : List String :=
  ["tesla", "bmw", "audi", "honda", "toyota", "ford", "mercedes", "benz", "volkswagen", "vw",
   "nissan", "hyundai", "kia", "chevrolet", "chevy", "mazda", "subaru", "lexus", "infiniti",
   "acura", "porsche", "ferrari", "lamborghini", "maserati", "bentley", "rolls", "royce",
   "jaguar", "land rover", "range rover", "volvo", "saab", "peugeot", "renault", "fiat",
   "alfa romeo", "chrysler", "dodge", "jeep", "ram", "gmc", "cadillac", "buick", "lincoln",
   "suzuki", "mitsubishi", "isuzu", "daihatsu", "tata", "mahindra", "maruti", "skoda", "seat",
   "mini", "smart", "genesis", "rivian", "lucid", "polestar", "harley", "ducati", "yamaha",
   "kawasaki", "ktm", "triumph", "royal enfield", "bajaj", "hero", "tvs"]

def KEYWORDS.vehicle.related : List String :=
  ["driving", "drive", "rode", "riding", "parked", "parking", "garage", "highway", "road",
   "traffic", "wheel", "tire", "engine", "dashboard", "steering", "saveclip", "carshow",
   "autoshow", "dealership", "showroom", "roadtrip", "carwash"]

def KEYWORDS.pet.dogs : List String :=
  ["dog", "puppy", "pup", "doggy", "doggie", "canine", "hound", "mutt",
   "labrador", "lab", "retriever", "golden", "german shepherd", "shepherd", "gsd",
   "bulldog", "french bulldog", "frenchie", "poodle", "beagle", "husky", "malamute",
   "corgi", "pug", "boxer", "rottweiler", "doberman", "dalmatian", "chihuahua",
   "yorkie", "yorkshire", "shih tzu", "maltese", "pomeranian", "pom", "dachshund",
   "weiner", "pitbull", "pit bull", "terrier", "collie", "border collie", "aussie",
   "australian shepherd", "cocker spaniel", "spaniel", "mastiff", "great dane",
   "saint bernard", "bernese", "newfoundland", "akita", "shiba", "chow", "samoyed",
   "vizsla", "weimaraner", "pointer", "setter", "basset", "bloodhound", "greyhound",
   "whippet", "bichon", "havanese", "lhasa", "schnauzer", "airedale", "westie",
   "scottie", "cairn", "jack russell", "papillon", "pekingese", "cavalier", "boston"]

def KEYWORDS.pet.cats : List String :=
  ["cat", "kitten", "kitty", "kittycat", "feline", "meow",
   "persian", "siamese", "maine coon", "ragdoll", "bengal", "abyssinian",
   "sphynx", "british shorthair", "scottish fold", "russian blue", "birman",
   "burmese", "oriental", "himalayan", "turkish", "norwegian", "siberian",
   "american shorthair", "exotic", "devon rex", "cornish rex", "manx", "tabby"]

def KEYWORDS.pet.others : List String :=
  ["pet", "animal", "bird", "parrot", "parakeet", "budgie", "cockatiel", "macaw",
   "canary", "finch", "cockatoo", "lovebird", "conure",
   "rabbit", "bunny", "hamster", "guinea pig", "gerbil", "mouse", "rat", "ferret",
   "fish", "goldfish", "betta", "aquarium", "turtle", "tortoise", "lizard", "gecko",
   "iguana", "snake", "python", "frog", "toad", "hermit crab",
   "horse", "pony", "mare", "stallion", "foal", "equine",
   "cow", "calf", "bull", "goat", "sheep", "lamb", "pig", "piglet", "chicken", "hen",
   "rooster", "duck", "goose", "turkey", "donkey", "mule", "llama", "alpaca"]

def KEYWORDS.pet.related : List String :=
  ["fauna", "creature", "furry", "paw", "tail", "whiskers", "collar", "leash",
   "fetch", "bark", "woof", "meowing", "purr", "vet", "petshop", "adoption", "rescue"]

def KEYWORDS.nature.landscapes : List String :=
  ["nature", "landscape", "scenery", "scenic", "vista", "panorama", "view",
   "mountain", "hill", "peak", "summit", "cliff", "canyon", "valley", "gorge",
   "beach", "coast", "shore", "seaside", "oceanfront", "waterfront", "bay", "cove",
   "forest", "woods", "woodland", "jungle", "rainforest", "grove", "thicket",
   "desert", "dune", "oasis", "savanna", "prairie", "steppe", "tundra",
   "island", "peninsula", "archipelago", "atoll", "reef", "lagoon"]

def KEYWORDS.nature.water : List String :=
  ["lake", "river", "stream", "creek", "brook", "waterfall", "cascade", "rapids",
   "ocean", "sea", "pond", "pool", "spring", "fountain", "geyser", "hot spring",
   "wetland", "marsh", "swamp", "bog", "estuary", "delta", "fjord"]

def KEYWORDS.nature.sky : List String :=
  ["sky", "cloud", "sunset", "sunrise", "dawn", "dusk", "twilight", "golden hour",
   "rainbow", "aurora", "northern lights", "stars", "moon", "moonlight", "starry"]

def KEYWORDS.nature.plants : List String :=
  ["tree", "flower", "plant", "garden", "park", "botanical", "greenhouse",
   "rose", "tulip", "daisy", "sunflower", "lily", "orchid", "lotus", "cherry blossom",
   "sakura", "lavender", "wildflower", "bouquet", "bloom", "blossom", "petal",
   "leaf", "leaves", "foliage", "fern", "moss", "ivy", "vine", "bamboo", "palm",
   "oak", "pine", "maple", "birch", "willow", "redwood", "sequoia", "eucalyptus",
   "grass", "lawn", "meadow", "field", "pasture", "farmland", "countryside",
   "bush", "shrub", "hedge", "cactus", "succulent", "mushroom", "fungus"]

def KEYWORDS.nature.related : List String :=
  ["outdoor", "outside", "wilderness", "wild", "natural", "environment", "eco",
   "hiking", "hike", "trail", "trek", "camping", "camp", "backpacking",
   "flora", "greenery", "vegetation", "habitat", "ecosystem", "conservation",
   "national park", "reserve", "sanctuary", "arboretum"]

def KEYWORDS.person.people : List String :=
  ["person", "people", "human", "face", "portrait", "selfie", "headshot", "profile",
   "man", "woman", "boy", "girl", "child", "children", "kid", "kids", "baby", "infant",
   "toddler", "teen", "teenager", "adult", "elder", "senior", "guy", "gal", "dude",
   "gentleman", "lady", "sir", "madam", "mr", "mrs", "ms", "miss"]

def KEYWORDS.person.relationships : List String :=
  ["family", "friend", "friends", "bestie", "bff", "buddy", "pal", "mate",
   "couple", "pair", "duo", "trio", "group", "squad", "gang", "crew", "team",
   "mom", "mother", "mama", "mum", "mommy", "dad", "father", "papa", "daddy",
   "parent", "parents", "son", "daughter", "brother", "sister", "sibling",
   "grandma", "grandmother", "grandpa", "grandfather", "grandparent",
   "aunt", "uncle", "cousin", "nephew", "niece", "husband", "wife", "spouse",
   "boyfriend", "girlfriend", "partner", "fiance", "fiancee"]

def KEYWORDS.person.events : List String :=
  ["wedding", "birthday", "party", "celebration", "graduation", "ceremony",
   "anniversary", "reunion", "gathering", "meetup", "hangout", "get together",
   "christmas", "thanksgiving", "easter", "halloween", "new year", "diwali",
   "eid", "hanukkah", "festival", "carnival", "prom", "homecoming", "shower",
   "reception", "engagement", "proposal", "baptism", "communion", "bar mitzvah"]

def KEYWORDS.person.names : List String :=
  ["john", "james", "jimmy", "jim", "michael", "mike", "david", "dave", "robert", "rob", "bob", "bobby",
   "william", "will", "bill", "billy", "richard", "rick", "dick", "joseph", "joe", "joey", "thomas", "tom", "tommy", "charles", "charlie",
   "christopher", "chris", "daniel", "dan", "danny", "matthew", "matt", "anthony", "tony", "mark", "donald", "don", "donny",
   "steven", "steve", "paul", "andrew", "andy", "drew", "joshua", "josh",
   "kenneth", "ken", "kenny", "kevin", "kev", "brian", "george", "timothy", "tim", "timmy", "ronald", "ron", "ronny",
   "edward", "ed", "eddie", "ted", "teddy", "jason", "jay", "jeffrey", "jeff", "ryan",
   "jacob", "jake", "gary", "nicholas", "nick", "nicky", "eric", "jonathan", "jon", "johnny", "stephen", "larry",
   "justin", "scott", "scotty", "brandon", "benjamin", "ben", "benny", "samuel", "sam", "sammy",
   "raymond", "ray", "gregory", "greg", "frank", "frankie", "alexander", "alex", "patrick", "pat", "paddy",
   "jack", "jackie", "dennis", "denny", "jerry",
   "mary", "patricia", "pat", "patty", "trish", "jennifer", "jen", "jenny", "linda", "elizabeth", "liz", "beth", "lizzy",
   "barbara", "barb", "barbie", "susan", "sue", "suzy", "jessica", "jess", "jessie", "sarah", "sara", "karen",
   "lisa", "nancy", "betty", "margaret", "maggie", "meg", "peggy", "sandra", "sandy", "ashley", "ash",
   "kimberly", "kim", "kimmy", "emily", "em", "emma", "donna", "michelle", "shelly", "micky",
   "dorothy", "dot", "dottie", "carol", "amanda", "mandy", "melissa", "mel", "missy", "deborah", "deb", "debbie",
   "stephanie", "steph", "rebecca", "becky", "becca", "sharon", "laura", "cynthia", "cindy",
   "kathleen", "kathy", "kate", "katie", "amy", "angela", "angie", "shirley", "anna", "annie", "brenda",
   "pamela", "pam", "nicole", "nikki", "helen",
   "samantha", "katherine", "christine", "chris", "christy", "tina", "debra", "rachel", "rach",
   "carolyn", "janet", "jan", "catherine", "cathy", "maria", "heather",
   "diane", "di", "ruth", "ruthie", "julie", "jules", "olivia", "liv", "livvy", "joyce", "virginia", "ginny",
   "victoria", "vicky", "tori", "kelly", "lauren", "christina",
   "joan", "joanie", "evelyn", "eve", "evie", "judith", "judy", "jude", "megan", "meg", "meggie",
   "andrea", "andie", "cheryl", "hannah", "jacqueline", "jackie", "martha", "gloria",
   "teresa", "terry", "ann", "anne", "annie", "madison", "maddie", "frances", "fran", "frannie",
   "kathryn", "janice", "jean", "jeanie", "abigail", "abby", "gail", "alice",
   "sophia", "sophie", "grace", "gracie", "chloe", "isabella", "bella", "izzy", "natalie", "nat",
   "zoe", "zoey", "lily", "maya", "mia", "ava",
   "rahul", "amit", "raj", "raju", "priya", "anita", "sanjay", "vijay", "ravi", "arun", "suresh",
   "ramesh", "pooja", "neha", "deepa", "sunita", "rekha", "seema", "meera", "kavita", "anand",
   "kumar", "singh", "sharma", "patel", "gupta", "verma", "rani", "devi", "lakshmi", "gita",
   "arjun", "krishna", "shiva", "ganesh", "lakshman", "sita", "radha", "durga", "saraswati", "parvati",
   "aarav", "vihaan", "aditya", "vivaan", "ananya", "aadhya", "diya", "pihu", "kavya", "ishaan",
   "rohan", "nikhil", "varun", "karan", "yash", "aryan", "dev", "reyansh", "ayaan", "atharva",
   "aanya", "saanvi", "anika", "navya", "tara", "sara", "myra", "ira", "nisha", "rita",
   "praveen", "prakash", "prasad", "pranav", "pradeep", "prashant", "pramod", "prabhu", "preeti", "priti"]

def KEYWORDS.person.related : List String :=
  ["selfie", "portrait", "headshot", "mugshot", "passport photo", "id photo",
   "profile pic", "avatar", "face pic", "groupie", "groufie"]

/-! ### Keyword matching (`containsKeyword`) -/

/-- A regex word character `\w`, i.e. `[A-Za-z0-9_]`. -/
def isWordChar (c : Char) : Bool := c.isAlphanum || c == '_'

/-- Word-character test seen by a `\b` position, with `none` standing for
the edge of the string (edges count as non-word). -/
def wordB : Option Char → Bool
  | none => false
  | some c => isWordChar c

/-- Does the keyword match at exactly this position of the text
(`prev` is the character just before the position)?  This is
`new RegExp("\\b" + kw + "\\b").test` restricted to one position: the
keyword must be a prefix of the remaining text and both ends must sit on a
`\b` boundary (adjacent word-ness differs). -/
def matchHere (kw : List Char) (prev : Option Char) (t : List Char) : Bool :=
  kw.isPrefixOf t &&
  (wordB prev != wordB t.head?) &&
  (wordB kw.getLast? != wordB (t.drop kw.length).head?)

/-- Scan every position of the text for a word-boundary match. -/
def wbMatchAux (kw : List Char) : Option Char → List Char → Bool
  | prev, [] => matchHere kw prev []
  | prev, c :: rest => matchHere kw prev (c :: rest) || wbMatchAux kw (some c) rest

/-- `new RegExp("\\b" + escaped + "\\b", "i").test(lowerText)`.  The source
escapes regex metacharacters first; every keyword in `KEYWORDS` consists of
lowercase letters and spaces, so escaping is the identity here, and the `i`
flag is vacuous on the already-lowercased text. -/
def regexWordBoundaryTest (kw : String) (text : String) : Bool :=
  wbMatchAux kw.data none text.data

/-- `text.toLowerCase().replace(/[_\-\.]/g, ' ')`. -/
def normalizeText (text : String) : String :=
  ⟨(text.data.map Char.toLower).map
    (fun c => if c = '_' ∨ c = '-' ∨ c = '.' then ' ' else c)⟩

/-- JavaScript `haystack.includes(needle)`: the needle occurs as a
contiguous substring (anywhere, ignoring word boundaries). -/
def includes (needle : List Char) : List Char → Bool
  | [] => needle.isPrefixOf []
  | c :: rest => needle.isPrefixOf (c :: rest) || includes needle rest

/-- The per-keyword test inside `containsKeyword`'s inner loop: first the
word-boundary regex, then (unless `strictWordBoundary`)
`lowerText.includes(keyword.toLowerCase())`. -/
def keywordHit (lowerText : String) (strictWordBoundary : Bool) (keyword : String) : Bool :=
  regexWordBoundaryTest keyword lowerText ||
    (!strictWordBoundary && includes (keyword.data.map Char.toLower) lowerText.data)

/-- `ImageProcessor.containsKeyword(text, keywordLists, strictWordBoundary)`
(`src/unnamed/part_001` lines 220–237): normalize the text, then return the
first keyword (scanning the lists in order) whose word-boundary regex
matches, or — in non-strict mode — which occurs as a plain substring;
`null` (`none`) when nothing matches. -/
def containsKeyword (text : String) (keywordLists : List (List String))
    (strictWordBoundary : Bool) : Option String :=
  let lowerText := normalizeText text
  keywordLists.foldr (· ++ ·) [] |>.find? (keywordHit lowerText strictWordBoundary)

/-! ### Hash-bucket pseudo-classification (`classifyByEmbedding`) -/

/-- JavaScript `ToInt32` (the effect of `x & x` / `<<` on a number):
reduce mod `2^32` into the signed range `[-2^31, 2^31)`. -/
def toInt32 (x : ℤ) : ℤ :=
  let r := x % 4294967296
  if r < 2147483648 then r else r - 4294967296

/-- One step of the hash loop:
`hash = ((hash << 5) - hash) + v; hash = hash & hash;`.
`hash << 5` wraps to a signed 32-bit value; the subtraction and addition
are exact on doubles of this magnitude; `hash & hash` wraps the result. -/
def hashStep (hash : ℤ) (v : ℤ) : ℤ :=
  toInt32 (toInt32 (hash * 32) - hash + v)

/-- `ImageProcessor.classifyByEmbedding(embedding, filename)`
(`src/unnamed/part_001` lines 326–353): fold the filename's character codes
and `Math.floor(e_i * 1000)` for the first `min(10, length)` embedding
values through the 32-bit hash, reduce `Math.abs(hash) % 100` and pick the
quartile bucket. -/
def classifyByEmbedding (embedding : List ℚ) (filename : String) : String :=
  if embedding.length = 0 then "other"
  else
    let h1 : ℤ := filename.data.foldl (fun h c => hashStep h (Int.ofNat c.toNat)) 0
    let h2 : ℤ := (embedding.take 10).foldl (fun h q => hashStep h ⌊q * 1000⌋) h1
    let hashValue : ℕ := h2.natAbs % 100
    if hashValue < 25 then "nature"
    else if hashValue < 50 then "pet"
    else if hashValue < 75 then "person"
    else "vehicle"

/-! ### Category determination (`determineCategories`) -/

/-- `ImageProcessor.determineCategories(embedding, filename)`
(`src/unnamed/part_001` lines 243–320): collect every keyword-matched
category (person via the loose lists, else via strict name matching), fall
back to the embedding/hash pseudo-category when nothing matched and the
embedding is non-empty, and finally to `other`. -/
def determineCategories (embedding : List ℚ) (filename : String) : List String :=
  let vehicleMatch := containsKeyword filename
    [KEYWORDS.vehicle.types, KEYWORDS.vehicle.brands, KEYWORDS.vehicle.related] false
  let petMatch := containsKeyword filename
    [KEYWORDS.pet.dogs, KEYWORDS.pet.cats, KEYWORDS.pet.others, KEYWORDS.pet.related] false
  let natureMatch := containsKeyword filename
    [KEYWORDS.nature.landscapes, KEYWORDS.nature.water, KEYWORDS.nature.sky,
     KEYWORDS.nature.plants, KEYWORDS.nature.related] false
  let personMatch := containsKeyword filename
    [KEYWORDS.person.people, KEYWORDS.person.relationships, KEYWORDS.person.events,
     KEYWORDS.person.related] false
  let nameMatch := containsKeyword filename [KEYWORDS.person.names] true
  let categories : List String :=
    (if vehicleMatch.isSome then ["vehicle"] else []) ++
    (if petMatch.isSome then ["pet"] else []) ++
    (if natureMatch.isSome then ["nature"] else []) ++
    (if personMatch.isSome || nameMatch.isSome then ["person"] else [])
  let categories :=
    if categories = [] ∧ embedding.length ≠ 0 then
      let embeddingCategory := classifyByEmbedding embedding filename
      if embeddingCategory ≠ "other" then categories ++ [embeddingCategory] else categories
    else categories
  if categories = [] then ["other"] else categories

/-! ### Embedding signatures and the person registry -/

/-- `ImageProcessor.generateEmbeddingSignature(embedding)`
(`src/unnamed/part_001` lines 385–397): 8 segment means, segment size
`Math.floor(length / 8)` (`/` below is natural floor division); any final
remainder is never read.  When a segment is empty the source computes
`0 / 0`, the IEEE value NaN — modelled as `none`. -/
def generateEmbeddingSignature (embedding : List ℚ) : List (Option ℚ) :=
  let segmentSize := embedding.length / 8
  (List.range 8).map (fun i =>
    let segment := (embedding.drop (i * segmentSize)).take segmentSize
    if segment.length = 0 then none else some (segment.sum / (segment.length : ℚ)))

/-- All entries of a float list that are actual numbers; `none` as soon as
one of them is NaN. -/
def allSome : List (Option ℚ) → Option (List ℚ)
  | [] => some []
  | none :: _ => none
  | some x :: rest => (allSome rest).map (fun l => x :: l)

/-- `ImageProcessor.calculateSimilarity(sig1, sig2)`
(`src/unnamed/part_001` lines 402–417): 0 on length mismatch, otherwise the
cosine `dot / (Math.sqrt(norm1) * Math.sqrt(norm2))`, and 0 whenever
`magnitude > 0` fails.  If either signature contains a NaN the accumulated
sums and hence `magnitude` are NaN, the `magnitude > 0` comparison is false
and the source returns 0 — the `allSome` fall-through below. -/
noncomputable def calculateSimilarity (sig1 sig2 : List (Option ℚ)) : ℝ :=
  if sig1.length ≠ sig2.length then 0
  else
    match allSome sig1, allSome sig2 with
    | some s1, some s2 =>
      let dotProduct : ℚ := (List.zipWith (· * ·) s1 s2).sum
      let norm1 : ℚ := (s1.map (fun x => x * x)).sum
      let norm2 : ℚ := (s2.map (fun x => x * x)).sum
      let magnitude : ℝ := Real.sqrt (norm1 : ℝ) * Real.sqrt (norm2 : ℝ)
      if magnitude > 0 then (dotProduct : ℝ) / magnitude else 0
    | _, _ => 0

/-- The process-wide `personEmbeddingStore` `Map`: insertion-ordered
`personId ↦ signature` entries. -/
abbrev PersonStore := List (String × List (Option ℚ))

/-- `String(n).padStart(width, c)`. -/
def padStart (s : String) (width : ℕ) (c : Char) : String :=
  if s.length < width then ⟨List.replicate (width - s.length) c⟩ ++ s else s

/-- The scan loop of `findOrCreatePersonId`: walk the stored identities in
insertion order and return the first whose similarity with the presented
signature exceeds 0.85 (strictly). -/
noncomputable def findMatchingPerson (signature : List (Option ℚ)) :
    PersonStore → Option String
  | [] => none
  | (personId, storedSignature) :: rest =>
    if calculateSimilarity signature storedSignature > 0.85 then some personId
    else findMatchingPerson signature rest

/-- `ImageProcessor.findOrCreatePersonId(embedding, filename)`
(`src/unnamed/part_001` lines 359–380), with the global
`personEmbeddingStore` passed explicitly: reuse the first sufficiently
similar identity, otherwise mint `person_{size+1}` zero-padded to 4 digits
and append it to the store.  `filename` is only used for logging. -/
noncomputable def findOrCreatePersonId (embedding : List ℚ) (filename : String)
    (store : PersonStore) : String × PersonStore :=
  let signature := generateEmbeddingSignature embedding
  match findMatchingPerson signature store with
  | some personId => (personId, store)
  | none =>
    let newPersonId := "person_" ++ padStart (toString (store.length + 1)) 4 '0'
    (newPersonId, store ++ [(newPersonId, signature)])

/-! ### Filename-only analysis and the full classifier -/

/-- `ImageProcessor.analyzeFilename(filename)` (`src/unnamed/part_001`
lines 422–467): the four loose keyword checks, each setting its flag and
pushing one descriptive token (person hard-codes `person_0001`);
`uncategorized` exactly when nothing matched. -/
def analyzeFilename (filename : String) : AutoTags :=
  let vehicleHit := (containsKeyword filename
    [KEYWORDS.vehicle.types, KEYWORDS.vehicle.brands, KEYWORDS.vehicle.related] false).isSome
  let petHit := (containsKeyword filename
    [KEYWORDS.pet.dogs, KEYWORDS.pet.cats, KEYWORDS.pet.others, KEYWORDS.pet.related] false).isSome
  let natureHit := (containsKeyword filename
    [KEYWORDS.nature.landscapes, KEYWORDS.nature.water, KEYWORDS.nature.sky,
     KEYWORDS.nature.plants, KEYWORDS.nature.related] false).isSome
  let personHit := (containsKeyword filename
    [KEYWORDS.person.people, KEYWORDS.person.relationships, KEYWORDS.person.events,
     KEYWORDS.person.related] false).isSome
  let hasMatch := vehicleHit || petHit || natureHit || personHit
  { person_id := if personHit then some "person_0001" else none
    nature := natureHit
    pets := petHit
    vehicle := vehicleHit
    objects :=
      (if vehicleHit then ["vehicle"] else []) ++
      (if petHit then ["animal"] else []) ++
      (if natureHit then ["outdoor"] else []) ++
      (if personHit then ["portrait"] else []) ++
      (if hasMatch then [] else ["uncategorized"]) }

/-- `ImageProcessor.analyzeEmbedding(embedding, filename)`
(`src/unnamed/part_001` lines 169–215), with the global person store passed
explicitly: with no embedding fall back to `analyzeFilename`; otherwise
apply every category from `determineCategories`, resolving a person id via
the registry, and push `uncategorized` exactly when the categories are
empty or just `other`. -/
noncomputable def analyzeEmbedding (embedding : List ℚ) (filename : String)
    (store : PersonStore) : AutoTags × PersonStore :=
  if embedding.length = 0 then (analyzeFilename filename, store)
  else
    let categories := determineCategories embedding filename
    let personId : Option String :=
      if categories.contains "person" then
        some (findOrCreatePersonId embedding filename store).1
      else none
    let store1 : PersonStore :=
      if categories.contains "person" then (findOrCreatePersonId embedding filename store).2
      else store
    let uncategorized :=
      categories.length = 0 ∨ (categories.length = 1 ∧ categories.contains "other")
    (⟨personId, categories.contains "nature", categories.contains "pet",
      categories.contains "vehicle",
      (if categories.contains "vehicle" then ["vehicle"] else []) ++
      (if categories.contains "pet" then ["animal"] else []) ++
      (if categories.contains "nature" then ["landscape", "outdoor"] else []) ++
      (if categories.contains "person" then ["portrait"] else []) ++
      (if uncategorized then ["uncategorized"] else [])⟩, store1)

/-! ### Destination computation -/

/-- `ImageProcessor.getAllFolderPaths(autoTags, customTags)`
(`src/unnamed/part_001` lines 506–539): one folder per truthy category flag
in the fixed order vehicles, pets, nature, people/<personId>, then
`tags/<tag.trim()>` for each custom tag passing `tag && tag.trim()`, and
`['uncategorized']` if nothing was pushed. -/
def getAllFolderPaths (autoTags : AutoTags) (customTags : List String) : List String :=
  let folders : List String :=
    (if autoTags.vehicle then ["vehicles"] else []) ++
    (if autoTags.pets then ["pets"] else []) ++
    (if autoTags.nature then ["nature"] else []) ++
    (if jsTruthy autoTags.person_id then ["people/" ++ autoTags.person_id.getD ""] else [])
  let folders := customTags.foldl
    (fun acc tag => if tag != "" && jsTrim tag != "" then acc ++ ["tags/" ++ jsTrim tag] else acc)
    folders
  if folders = [] then ["uncategorized"] else folders

/-- `ImageProcessor.determineFolderPath(autoTags, customTags)`
(`src/unnamed/part_001` lines 544–547): `getAllFolderPaths(...)[0]`.  The
folder list is never empty, so the JS index read always hits an element;
the default of `headD` is unreachable. -/
def determineFolderPath (autoTags : AutoTags) (customTags : List String) : String :=
  (getAllFolderPaths autoTags customTags).headD ""

end ImageProcessor

namespace OldImageProcessor

/-- `ImageProcessor.determineFolderPath(autoTags, customTags)` from the
legacy `src/services/imageProcessor.old.js` lines 269–295: a mutually
exclusive priority chain vehicle → pet → nature → person → first custom tag
(taken raw, no trim and no emptiness check) → `uncategorized`. -/
def determineFolderPath (autoTags : AutoTags) (customTags : List String) : String :=
  if autoTags.vehicle then "vehicles"
  else if autoTags.pets then "pets"
  else if autoTags.nature then "nature"
  else if jsTruthy autoTags.person_id then "people/" ++ autoTags.person_id.getD ""
  else if customTags.length > 0 then "tags/" ++ customTags.headD ""
  else "uncategorized"

end OldImageProcessor

/-!
## Theorems

One theorem (plus, where needed, a counterexample and a witness) per claim
of the specification review, following helper lemmas.
-/

namespace CollectionSync

/-- The `images` array of the first document with this key (the document
`findOneAndUpdate {key}` / a keyed query would address); `[]` if absent. -/
def docImages (docs : List CatDoc) (key : String) : List ImageData :=
  match docs.find? (fun d => d.key == key) with
  | some d => d.images
  | none => []

/-- The `metadata.imageCount` of the first document with this key; 0 if
absent. -/
def docCount (docs : List CatDoc) (key : String) : ℤ :=
  match docs.find? (fun d => d.key == key) with
  | some d => d.imageCount
  | none => 0

theorem docImages_upsertPush (docs : List CatDoc) (key : String) (img : ImageData) :
    docImages (upsertPush docs key img) key = docImages docs key ++ [img] := by
  induction docs with
  | nil => simp [upsertPush, docImages]
  | cons d rest ih =>
    by_cases h : d.key = key
    · simp [upsertPush, docImages, h]
    · simpa [upsertPush, docImages, h] using ih

theorem docCount_upsertPush (docs : List CatDoc) (key : String) (img : ImageData) :
    docCount (upsertPush docs key img) key = docCount docs key + 1 := by
  induction docs with
  | nil => simp [upsertPush, docCount]
  | cons d rest ih =>
    by_cases h : d.key = key
    · simp [upsertPush, docCount, h]
    · simpa [upsertPush, docCount, h] using ih

theorem add_persons (db : DB) (img : ImageData) :
    (addImageToCollections db img).1.persons =
      if jsTruthy img.autoTags.person_id then
        upsertPush db.persons (img.autoTags.person_id.getD "") img
      else db.persons := by
  simp only [addImageToCollections]
  rw [apply_ite (fun p : DB × List String => p.1.persons)]
  simp

theorem add_pets (db : DB) (img : ImageData) :
    (addImageToCollections db img).1.pets =
      if img.autoTags.pets then upsertPush db.pets "pet" img else db.pets := by
  simp only [addImageToCollections]
  rw [apply_ite (fun p : DB × List String => p.1.pets)]
  simp

theorem add_vehicles (db : DB) (img : ImageData) :
    (addImageToCollections db img).1.vehicles =
      if img.autoTags.vehicle then upsertPush db.vehicles "vehicle" img else db.vehicles := by
  simp only [addImageToCollections]
  rw [apply_ite (fun p : DB × List String => p.1.vehicles)]
  simp

theorem add_nature_of_nature (db : DB) (img : ImageData) (h : img.autoTags.nature = true) :
    (addImageToCollections db img).1.nature = upsertPush db.nature "nature" img := by
  simp only [addImageToCollections]
  rw [apply_ite (fun p : DB × List String => p.1.nature)]
  rw [if_neg (by simp [h])]
  simp [h]

end CollectionSync

open CollectionSync ImageProcessor

/-- Claim C1, counterexample.  The claim asserts that re-running
`CollectionSync.addImageToCollections` with the same record (same
filename) creates no duplicate entry and does not increment `imageCount` a
second time.  On the code, syncing a nature-tagged record twice from the
empty store leaves the `nature` document with the record embedded twice and
`imageCount = 2`: the second sync is not a no-op. -/
theorem claim_C1_counterexample :
    (CollectionSync.addImageToCollections (⟨[], [], [], []⟩ : DB)
        ⟨"a.jpg", ⟨none, true, false, false, ["outdoor"]⟩⟩).1.nature
      = [⟨"nature", [⟨"a.jpg", ⟨none, true, false, false, ["outdoor"]⟩⟩], 1⟩] ∧
    (CollectionSync.addImageToCollections
        (CollectionSync.addImageToCollections (⟨[], [], [], []⟩ : DB)
          ⟨"a.jpg", ⟨none, true, false, false, ["outdoor"]⟩⟩).1
        ⟨"a.jpg", ⟨none, true, false, false, ["outdoor"]⟩⟩).1.nature
      = [⟨"nature",
          [⟨"a.jpg", ⟨none, true, false, false, ["outdoor"]⟩⟩,
           ⟨"a.jpg", ⟨none, true, false, false, ["outdoor"]⟩⟩], 2⟩] := by
  constructor <;> rfl

/-- Claim C1, amended: `addImageToCollections` performs no
filename-within-destination deduplication at all — every sync appends the
record again to each destination document selected by the truthy
`autoTags` flags and increments that document's `imageCount` again, so two
syncs of the same record append it twice and add 2 to the count of each
destination (sync is not idempotent). -/
theorem claim_C1_amended (db : DB) (img : ImageData) :
    (∀ pid, img.autoTags.person_id = some pid → pid ≠ "" →
      docImages ((addImageToCollections (addImageToCollections db img).1 img).1).persons pid
          = docImages db.persons pid ++ [img, img] ∧
      docCount ((addImageToCollections (addImageToCollections db img).1 img).1).persons pid
          = docCount db.persons pid + 2) ∧
    (img.autoTags.pets = true →
      docImages ((addImageToCollections (addImageToCollections db img).1 img).1).pets "pet"
          = docImages db.pets "pet" ++ [img, img] ∧
      docCount ((addImageToCollections (addImageToCollections db img).1 img).1).pets "pet"
          = docCount db.pets "pet" + 2) ∧
    (img.autoTags.nature = true →
      docImages ((addImageToCollections (addImageToCollections db img).1 img).1).nature "nature"
          = docImages db.nature "nature" ++ [img, img] ∧
      docCount ((addImageToCollections (addImageToCollections db img).1 img).1).nature "nature"
          = docCount db.nature "nature" + 2) ∧
    (img.autoTags.vehicle = true →
      docImages ((addImageToCollections (addImageToCollections db img).1 img).1).vehicles "vehicle"
          = docImages db.vehicles "vehicle" ++ [img, img] ∧
      docCount ((addImageToCollections (addImageToCollections db img).1 img).1).vehicles "vehicle"
          = docCount db.vehicles "vehicle" + 2) := by
  refine ⟨?_, ?_, ?_, ?_⟩
  · intro pid hp hne
    have ht : jsTruthy img.autoTags.person_id = true := by simp [jsTruthy, hp, hne]
    have hg : img.autoTags.person_id.getD "" = pid := by simp [hp]
    simp only [add_persons, ht, if_true, hg]
    constructor
    · simp [docImages_upsertPush]
    · simp [docCount_upsertPush]; ring
  · intro h
    simp only [add_pets, h, if_true]
    constructor
    · simp [docImages_upsertPush]
    · simp [docCount_upsertPush]; ring
  · intro h
    rw [add_nature_of_nature _ _ h, add_nature_of_nature _ _ h]
    constructor
    · simp [docImages_upsertPush]
    · simp [docCount_upsertPush]; ring
  · intro h
    simp only [add_vehicles, h, if_true]
    constructor
    · simp [docImages_upsertPush]
    · simp [docCount_upsertPush]; ring

/-- Claim C1, witness: the amended theorem evaluated on a concrete record
carrying all four destinations, synced twice from the empty store. -/
theorem claim_C1_witness :
    docImages ((addImageToCollections
        (addImageToCollections (⟨[], [], [], []⟩ : DB)
          ⟨"a.jpg", ⟨some "person_0001", true, true, true, []⟩⟩).1
        ⟨"a.jpg", ⟨some "person_0001", true, true, true, []⟩⟩).1).pets "pet"
      = [⟨"a.jpg", ⟨some "person_0001", true, true, true, []⟩⟩,
         ⟨"a.jpg", ⟨some "person_0001", true, true, true, []⟩⟩] ∧
    docCount ((addImageToCollections
        (addImageToCollections (⟨[], [], [], []⟩ : DB)
          ⟨"a.jpg", ⟨some "person_0001", true, true, true, []⟩⟩).1
        ⟨"a.jpg", ⟨some "person_0001", true, true, true, []⟩⟩).1).persons "person_0001"
      = 2 := by
  have h := claim_C1_amended (⟨[], [], [], []⟩ : DB)
    ⟨"a.jpg", ⟨some "person_0001", true, true, true, []⟩⟩
  refine ⟨?_, ?_⟩
  · have := (h.2.1 rfl).1
    simpa [docImages] using this
  · have := (h.1 "person_0001" rfl (by decide)).2
    simpa [docCount] using this

/-- What one `updateMany({}) ; deleteMany(count ≤ 0)` pass does to a single
collection: survivors are clean of the filename and have positive counts,
and every pre-existing document reappears in pulled-and-decremented form
exactly when its decremented count is still positive. -/
theorem removeDocs_spec (docs : List CatDoc) (fn : String) :
    (∀ d ∈ deleteNonPositive (pullAndDec docs fn),
        (∀ img ∈ d.images, img.filename ≠ fn) ∧ 0 < d.imageCount) ∧
    (∀ d ∈ docs,
        (1 < d.imageCount →
          (⟨d.key, d.images.filter (fun img => img.filename != fn), d.imageCount - 1⟩ : CatDoc)
            ∈ deleteNonPositive (pullAndDec docs fn)) ∧
        (d.imageCount ≤ 1 →
          (⟨d.key, d.images.filter (fun img => img.filename != fn), d.imageCount - 1⟩ : CatDoc)
            ∉ deleteNonPositive (pullAndDec docs fn))) := by
  constructor
  · intro d hd
    simp only [deleteNonPositive, List.mem_filter, decide_eq_true_eq] at hd
    obtain ⟨hmem, hpos⟩ := hd
    simp only [pullAndDec, List.mem_map] at hmem
    obtain ⟨d0, _, rfl⟩ := hmem
    refine ⟨?_, hpos⟩
    intro img himg
    simp only [List.mem_filter, bne_iff_ne, ne_eq] at himg
    exact himg.2
  · intro d hd
    constructor
    · intro hlt
      simp only [deleteNonPositive, List.mem_filter, decide_eq_true_eq]
      refine ⟨?_, by omega⟩
      simp only [pullAndDec, List.mem_map]
      exact ⟨d, hd, rfl⟩
    · intro hle hmem
      simp only [deleteNonPositive, List.mem_filter, decide_eq_true_eq] at hmem
      omega

/-- Claim C2, counterexample.  The claim asserts that
`removeImageFromCollections` decrements `imageCount` only in documents that
actually contained the filename and leaves every other document unchanged.
On the code, removing `a.jpg` from a store whose Pet document holds only
`b.jpg` (count 1) also decrements that unrelated document to 0 and then
garbage-collects it: a document that never contained the filename is
destroyed. -/
theorem claim_C2_counterexample :
    CollectionSync.removeImageFromCollections
        (⟨[],
          [⟨"pet", [⟨"b.jpg", ⟨none, false, true, false, []⟩⟩], 1⟩],
          [⟨"nature", [⟨"a.jpg", ⟨none, true, false, false, []⟩⟩], 1⟩],
          []⟩ : DB) "a.jpg"
      = (⟨[], [], [], []⟩ : DB) ∧
    ("b.jpg" : String) ≠ "a.jpg" := by
  exact ⟨rfl, by decide⟩

/-- Claim C2, amended: `removeImageFromCollections` pulls the matching
records out of every category document but decrements `imageCount` in
EVERY category document — including those that did not contain the
filename — and then deletes exactly the documents whose decremented count
is ≤ 0.  Afterwards no occurrence of the filename remains in any
collection and every surviving document has a positive count. -/
theorem claim_C2_amended (db : DB) (fn : String) :
    (∀ d ∈ (removeImageFromCollections db fn).persons ++
           (removeImageFromCollections db fn).pets ++
           (removeImageFromCollections db fn).nature ++
           (removeImageFromCollections db fn).vehicles,
        (∀ img ∈ d.images, img.filename ≠ fn) ∧ 0 < d.imageCount) ∧
    (∀ d ∈ db.persons,
        (1 < d.imageCount →
          (⟨d.key, d.images.filter (fun img => img.filename != fn), d.imageCount - 1⟩ : CatDoc)
            ∈ (removeImageFromCollections db fn).persons) ∧
        (d.imageCount ≤ 1 →
          (⟨d.key, d.images.filter (fun img => img.filename != fn), d.imageCount - 1⟩ : CatDoc)
            ∉ (removeImageFromCollections db fn).persons)) ∧
    (∀ d ∈ db.pets,
        (1 < d.imageCount →
          (⟨d.key, d.images.filter (fun img => img.filename != fn), d.imageCount - 1⟩ : CatDoc)
            ∈ (removeImageFromCollections db fn).pets) ∧
        (d.imageCount ≤ 1 →
          (⟨d.key, d.images.filter (fun img => img.filename != fn), d.imageCount - 1⟩ : CatDoc)
            ∉ (removeImageFromCollections db fn).pets)) ∧
    (∀ d ∈ db.nature,
        (1 < d.imageCount →
          (⟨d.key, d.images.filter (fun img => img.filename != fn), d.imageCount - 1⟩ : CatDoc)
            ∈ (removeImageFromCollections db fn).nature) ∧
        (d.imageCount ≤ 1 →
          (⟨d.key, d.images.filter (fun img => img.filename != fn), d.imageCount - 1⟩ : CatDoc)
            ∉ (removeImageFromCollections db fn).nature)) ∧
    (∀ d ∈ db.vehicles,
        (1 < d.imageCount →
          (⟨d.key, d.images.filter (fun img => img.filename != fn), d.imageCount - 1⟩ : CatDoc)
            ∈ (removeImageFromCollections db fn).vehicles) ∧
        (d.imageCount ≤ 1 →
          (⟨d.key, d.images.filter (fun img => img.filename != fn), d.imageCount - 1⟩ : CatDoc)
            ∉ (removeImageFromCollections db fn).vehicles)) := by
  have hP := removeDocs_spec db.persons fn
  have hT := removeDocs_spec db.pets fn
  have hN := removeDocs_spec db.nature fn
  have hV := removeDocs_spec db.vehicles fn
  refine ⟨?_, hP.2, hT.2, hN.2, hV.2⟩
  intro d hd
  simp only [removeImageFromCollections, List.mem_append] at hd
  rcases hd with ((h | h) | h) | h
  · exact hP.1 d h
  · exact hT.1 d h
  · exact hN.1 d h
  · exact hV.1 d h

/-- Claim C2, witness: the amended theorem evaluated on a concrete store.
The Pet document held one unrelated image `b.jpg` with count 1; after
removing `a.jpg` its decremented form is gone from the store — the
unconditional decrement plus garbage collection destroyed it. -/
theorem claim_C2_witness :
    (⟨"pet", [⟨"b.jpg", ⟨none, false, true, false, []⟩⟩], 0⟩ : CatDoc)
      ∉ (removeImageFromCollections
          (⟨[],
            [⟨"pet", [⟨"b.jpg", ⟨none, false, true, false, []⟩⟩], 1⟩],
            [⟨"nature", [⟨"a.jpg", ⟨none, true, false, false, []⟩⟩], 1⟩],
            []⟩ : DB) "a.jpg").pets := by
  have h := (claim_C2_amended
      (⟨[],
        [⟨"pet", [⟨"b.jpg", ⟨none, false, true, false, []⟩⟩], 1⟩],
        [⟨"nature", [⟨"a.jpg", ⟨none, true, false, false, []⟩⟩], 1⟩],
        []⟩ : DB) "a.jpg").2.2.1
      ⟨"pet", [⟨"b.jpg", ⟨none, false, true, false, []⟩⟩], 1⟩ (by simp)
  have h2 := h.2 (by norm_num)
  simpa using h2


/-- The custom-tag loop of `getAllFolderPaths` appends exactly the trimmed
`tags/<tag>` entries of the tags whose trim is non-empty (`tag &&
tag.trim()` in the source), in input order. -/
theorem tagsFold_eq_filterMap (l : List String) (acc : List String) :
    l.foldl
      (fun acc tag => if tag != "" && jsTrim tag != "" then acc ++ ["tags/" ++ jsTrim tag] else acc)
      acc
    = acc ++ l.filterMap
        (fun tag => if jsTrim tag = "" then none else some ("tags/" ++ jsTrim tag)) := by
  induction l generalizing acc with
  | nil => simp
  | cons t ts ih =>
    rw [List.foldl_cons, ih, List.filterMap_cons]
    by_cases htr : jsTrim t = ""
    · have hcond : (t != "" && jsTrim t != "") = false := by simp [htr]
      rw [hcond, htr]
      simp
    · have hne : t ≠ "" := by
        intro h
        rw [h] at htr
        exact htr rfl
      have hcond : (t != "" && jsTrim t != "") = true := by simp [htr, hne]
      rw [hcond, if_neg htr]
      simp

/-- Closed form of `getAllFolderPaths`: the fixed category order, then the
custom tags, with `uncategorized` exactly for an empty result. -/
theorem getAllFolderPaths_eq (autoTags : AutoTags) (customTags : List String) :
    getAllFolderPaths autoTags customTags =
      if ((if autoTags.vehicle then ["vehicles"] else []) ++
          (if autoTags.pets then ["pets"] else []) ++
          (if autoTags.nature then ["nature"] else []) ++
          (if jsTruthy autoTags.person_id then ["people/" ++ autoTags.person_id.getD ""] else []) ++
          customTags.filterMap
            (fun tag => if jsTrim tag = "" then none else some ("tags/" ++ jsTrim tag))) = []
      then ["uncategorized"]
      else
        (if autoTags.vehicle then ["vehicles"] else []) ++
        (if autoTags.pets then ["pets"] else []) ++
        (if autoTags.nature then ["nature"] else []) ++
        (if jsTruthy autoTags.person_id then ["people/" ++ autoTags.person_id.getD ""] else []) ++
        customTags.filterMap
          (fun tag => if jsTrim tag = "" then none else some ("tags/" ++ jsTrim tag)) := by
  simp only [getAllFolderPaths, tagsFold_eq_filterMap, List.append_assoc]

/-- Claim C5, counterexample.  The claim asserts `tags/<tag>` for each
NON-EMPTY custom tag (raw), with `uncategorized` only when no non-empty
custom tag exists.  The code instead trims each tag and drops tags whose
trim is empty: the non-empty tag `"  "` yields no `tags/` destination at
all (the result is `["uncategorized"]`, not `["tags/  "]`), and the
non-empty tag `" x "` yields the trimmed `tags/x`, not `tags/ x `. -/
theorem claim_C5_counterexample :
    getAllFolderPaths ⟨none, false, false, false, []⟩ ["  "] = ["uncategorized"] ∧
    (["uncategorized"] : List String) ≠ ["tags/  "] ∧
    getAllFolderPaths ⟨none, false, false, false, []⟩ [" x "] = ["tags/x"] ∧
    (["tags/x"] : List String) ≠ ["tags/ x "] := by
  exact ⟨rfl, by decide, rfl, by decide⟩

/-- Claim C5, amended: `getAllFolderPaths` returns the destinations in the
fixed order vehicles, pets, nature, `people/<personId>`, then
`tags/<tag.trim()>` for each custom tag WHOSE TRIM IS NON-EMPTY, in input
order (tags that are empty or all-whitespace are dropped, and emitted tags
are trimmed); when no category flag is set, `person_id` is null and every
custom tag trims to empty, it returns exactly `["uncategorized"]`; the
result is never empty. -/
theorem claim_C5 (autoTags : AutoTags) (customTags : List String) :
    getAllFolderPaths autoTags customTags =
      (if ((if autoTags.vehicle then ["vehicles"] else []) ++
           (if autoTags.pets then ["pets"] else []) ++
           (if autoTags.nature then ["nature"] else []) ++
           (if jsTruthy autoTags.person_id then ["people/" ++ autoTags.person_id.getD ""] else []) ++
           customTags.filterMap
             (fun tag => if jsTrim tag = "" then none else some ("tags/" ++ jsTrim tag))) = []
       then ["uncategorized"]
       else
         (if autoTags.vehicle then ["vehicles"] else []) ++
         (if autoTags.pets then ["pets"] else []) ++
         (if autoTags.nature then ["nature"] else []) ++
         (if jsTruthy autoTags.person_id then ["people/" ++ autoTags.person_id.getD ""] else []) ++
         customTags.filterMap
           (fun tag => if jsTrim tag = "" then none else some ("tags/" ++ jsTrim tag))) ∧
    getAllFolderPaths autoTags customTags ≠ [] ∧
    (autoTags.vehicle = false → autoTags.pets = false → autoTags.nature = false →
      autoTags.person_id = none → (∀ t ∈ customTags, jsTrim t = "") →
      getAllFolderPaths autoTags customTags = ["uncategorized"]) := by
  refine ⟨getAllFolderPaths_eq autoTags customTags, ?_, ?_⟩
  · rw [getAllFolderPaths_eq]
    by_cases h : ((if autoTags.vehicle then ["vehicles"] else []) ++
        (if autoTags.pets then ["pets"] else []) ++
        (if autoTags.nature then ["nature"] else []) ++
        (if jsTruthy autoTags.person_id then ["people/" ++ autoTags.person_id.getD ""] else []) ++
        customTags.filterMap
          (fun tag => if jsTrim tag = "" then none else some ("tags/" ++ jsTrim tag))) = []
    · rw [if_pos h]
      simp
    · rw [if_neg h]
      exact h
  · intro hv hp hn hpid htags
    rw [getAllFolderPaths_eq]
    have hfm : customTags.filterMap
        (fun tag => if jsTrim tag = "" then none else some ("tags/" ++ jsTrim tag)) = [] := by
      rw [List.filterMap_eq_nil_iff]
      intro t ht
      simp [htags t ht]
    simp [hv, hp, hn, hpid, hfm, jsTruthy]

/-- Claim C5, witness: no flags, null person id, one all-blank custom tag —
the single destination is `uncategorized`. -/
theorem claim_C5_witness :
    getAllFolderPaths ⟨none, false, false, false, []⟩ ["  "] = ["uncategorized"] ∧
    getAllFolderPaths ⟨none, false, false, false, []⟩ ["  "] ≠ [] := by
  have h := claim_C5 ⟨none, false, false, false, []⟩ ["  "]
  exact ⟨h.2.2 rfl rfl rfl rfl (by decide), h.2.1⟩

/-- Claim C10, counterexample.  The claim asserts the legacy
`determineFolderPath` always returns the same path as the first element of
the current `getAllFolderPaths`.  On an image with no categories and the
single custom tag `"  "`, the legacy chain returns the raw `tags/  ` while
the current implementation filters blank tags out and falls back to
`uncategorized`. -/
theorem claim_C10_counterexample :
    OldImageProcessor.determineFolderPath ⟨none, false, false, false, []⟩ ["  "] = "tags/  " ∧
    ImageProcessor.getAllFolderPaths ⟨none, false, false, false, []⟩ ["  "]
      = ["uncategorized"] ∧
    ImageProcessor.determineFolderPath ⟨none, false, false, false, []⟩ ["  "]
      = "uncategorized" ∧
    ("tags/  " : String) ≠ "uncategorized" := by
  refine ⟨rfl, rfl, rfl, by decide⟩

/-- Claim C10, amended: the legacy priority chain agrees with
`getAllFolderPaths(...)[0]` whenever every custom tag is non-empty and
equal to its own trim (the two implementations differ only in the legacy
code taking `customTags[0]` raw, while the current code trims tags and
drops blank ones). -/
theorem claim_C10_amended (autoTags : AutoTags) (customTags : List String)
    (h : ∀ t ∈ customTags, t ≠ "" ∧ jsTrim t = t) :
    OldImageProcessor.determineFolderPath autoTags customTags
      = ImageProcessor.determineFolderPath autoTags customTags := by
  unfold OldImageProcessor.determineFolderPath ImageProcessor.determineFolderPath
  rw [getAllFolderPaths_eq]
  cases hv : autoTags.vehicle with
  | true => simp [hv]
  | false =>
  cases hp : autoTags.pets with
  | true => simp [hv, hp]
  | false =>
  cases hn : autoTags.nature with
  | true => simp [hv, hp, hn]
  | false =>
  cases hj : jsTruthy autoTags.person_id with
  | true => simp [hv, hp, hn, hj]
  | false =>
  cases customTags with
  | nil => simp [hv, hp, hn, hj]
  | cons t ts =>
    obtain ⟨hne, htr⟩ := h t (by simp)
    have htne : jsTrim t ≠ "" := by
      rw [htr]
      exact hne
    simp [hv, hp, hn, hj, htr, htne, hne]

/-- Claim C10, witness: the amended theorem evaluated on an untagged image
with the single well-formed custom tag `"x"` — both implementations answer
`tags/x`. -/
theorem claim_C10_witness :
    OldImageProcessor.determineFolderPath ⟨none, false, false, false, []⟩ ["x"]
      = ImageProcessor.determineFolderPath ⟨none, false, false, false, []⟩ ["x"] ∧
    OldImageProcessor.determineFolderPath ⟨none, false, false, false, []⟩ ["x"] = "tags/x" := by
  refine ⟨claim_C10_amended _ _ ?_, rfl⟩
  intro t ht
  rw [List.mem_singleton] at ht
  subst ht
  exact ⟨by decide, by decide⟩

set_option maxRecDepth 10000

/-- Claim C9: classifying the filename `mercedes_benz.jpg` yields the
vehicle category (brand keyword `mercedes`) and never the person category:
the strict word-boundary matching of the person-name list rejects every
name fragment (such as `ed`) that occurs only as a substring, so
`person_id` stays null in the resulting `AutoTags` for every embedding and
every registry state. -/
theorem claim_C9 (embedding : List ℚ) (store : PersonStore) :
    containsKeyword "mercedes_benz.jpg"
        [KEYWORDS.vehicle.types, KEYWORDS.vehicle.brands, KEYWORDS.vehicle.related] false
      = some "mercedes" ∧
    containsKeyword "mercedes_benz.jpg" [KEYWORDS.person.names] true = none ∧
    determineCategories embedding "mercedes_benz.jpg" = ["vehicle"] ∧
    (analyzeEmbedding embedding "mercedes_benz.jpg" store).1.vehicle = true ∧
    (analyzeEmbedding embedding "mercedes_benz.jpg" store).1.person_id = none := by
  have hv : containsKeyword "mercedes_benz.jpg"
      [KEYWORDS.vehicle.types, KEYWORDS.vehicle.brands, KEYWORDS.vehicle.related] false
      = some "mercedes" := by decide
  have hp : containsKeyword "mercedes_benz.jpg"
      [KEYWORDS.pet.dogs, KEYWORDS.pet.cats, KEYWORDS.pet.others, KEYWORDS.pet.related] false
      = none := by decide
  have hn : containsKeyword "mercedes_benz.jpg"
      [KEYWORDS.nature.landscapes, KEYWORDS.nature.water, KEYWORDS.nature.sky,
       KEYWORDS.nature.plants, KEYWORDS.nature.related] false = none := by decide
  have hpe : containsKeyword "mercedes_benz.jpg"
      [KEYWORDS.person.people, KEYWORDS.person.relationships, KEYWORDS.person.events,
       KEYWORDS.person.related] false = none := by decide
  have hnm : containsKeyword "mercedes_benz.jpg" [KEYWORDS.person.names] true = none := by
    decide
  have hcats : determineCategories embedding "mercedes_benz.jpg" = ["vehicle"] := by
    simp only [determineCategories, hv, hp, hn, hpe, hnm]
    simp
  refine ⟨hv, hnm, hcats, ?_, ?_⟩ <;>
  · by_cases he : embedding.length = 0
    · have hfile : analyzeFilename "mercedes_benz.jpg"
          = ⟨none, false, false, true, ["vehicle"]⟩ := by
        simp only [analyzeFilename, hv, hp, hn, hpe]
        simp
      simp [analyzeEmbedding, he, hfile]
    · simp [analyzeEmbedding, he, hcats]

/-- With a non-empty embedding the hash fallback never yields `other`. -/
theorem classifyByEmbedding_ne_other (embedding : List ℚ) (filename : String)
    (h : embedding ≠ []) : classifyByEmbedding embedding filename ≠ "other" := by
  unfold classifyByEmbedding
  rw [if_neg (by simpa [List.length_eq_zero] using h)]
  dsimp only
  split_ifs <;> decide

/-- Claim C4: for a non-empty embedding and a filename with zero keyword
matches in every category list, `determineCategories` returns exactly the
one hash-bucket category, which is always one of nature/pet/person/vehicle
(never `other`/uncategorized), chosen from `abs(hash) % 100` by the fixed
quartile boundaries; determinism is immediate since the embedded functions
are pure. -/
theorem claim_C4 (embedding : List ℚ) (filename : String)
    (hne : embedding ≠ [])
    (hv : containsKeyword filename
      [KEYWORDS.vehicle.types, KEYWORDS.vehicle.brands, KEYWORDS.vehicle.related] false = none)
    (hp : containsKeyword filename
      [KEYWORDS.pet.dogs, KEYWORDS.pet.cats, KEYWORDS.pet.others, KEYWORDS.pet.related] false
      = none)
    (hn : containsKeyword filename
      [KEYWORDS.nature.landscapes, KEYWORDS.nature.water, KEYWORDS.nature.sky,
       KEYWORDS.nature.plants, KEYWORDS.nature.related] false = none)
    (hpe : containsKeyword filename
      [KEYWORDS.person.people, KEYWORDS.person.relationships, KEYWORDS.person.events,
       KEYWORDS.person.related] false = none)
    (hnm : containsKeyword filename [KEYWORDS.person.names] true = none) :
    determineCategories embedding filename = [classifyByEmbedding embedding filename] ∧
    classifyByEmbedding embedding filename
      ∈ (["nature", "pet", "person", "vehicle"] : List String) ∧
    ((((embedding.take 10).foldl (fun h q => hashStep h ⌊q * 1000⌋)
          (filename.data.foldl (fun h c => hashStep h (Int.ofNat c.toNat)) 0)).natAbs % 100 < 25
        → classifyByEmbedding embedding filename = "nature") ∧
     (25 ≤ ((embedding.take 10).foldl (fun h q => hashStep h ⌊q * 1000⌋)
          (filename.data.foldl (fun h c => hashStep h (Int.ofNat c.toNat)) 0)).natAbs % 100 ∧
        ((embedding.take 10).foldl (fun h q => hashStep h ⌊q * 1000⌋)
          (filename.data.foldl (fun h c => hashStep h (Int.ofNat c.toNat)) 0)).natAbs % 100 < 50
        → classifyByEmbedding embedding filename = "pet") ∧
     (50 ≤ ((embedding.take 10).foldl (fun h q => hashStep h ⌊q * 1000⌋)
          (filename.data.foldl (fun h c => hashStep h (Int.ofNat c.toNat)) 0)).natAbs % 100 ∧
        ((embedding.take 10).foldl (fun h q => hashStep h ⌊q * 1000⌋)
          (filename.data.foldl (fun h c => hashStep h (Int.ofNat c.toNat)) 0)).natAbs % 100 < 75
        → classifyByEmbedding embedding filename = "person") ∧
     (75 ≤ ((embedding.take 10).foldl (fun h q => hashStep h ⌊q * 1000⌋)
          (filename.data.foldl (fun h c => hashStep h (Int.ofNat c.toNat)) 0)).natAbs % 100
        → classifyByEmbedding embedding filename = "vehicle")) := by
  have hlen : embedding.length ≠ 0 := by simpa [List.length_eq_zero] using hne
  refine ⟨?_, ?_, ?_, ?_, ?_, ?_⟩
  · simp only [determineCategories, hv, hp, hn, hpe, hnm]
    simp [hlen, classifyByEmbedding_ne_other embedding filename hne]
  · unfold classifyByEmbedding
    rw [if_neg hlen]
    dsimp only
    split_ifs <;> decide
  all_goals
    unfold classifyByEmbedding
    rw [if_neg hlen]
    intro hh
    dsimp only
    split_ifs with h1 h2 h3 <;> first | rfl | omega

/-- Claim C4, witness: the filename `zzz.jpg` matches no keyword in any
category list, so with the non-empty embedding `[1]` classification falls
through to the single hash bucket. -/
theorem claim_C4_witness :
    ([1] : List ℚ) ≠ [] ∧
    containsKeyword "zzz.jpg"
      [KEYWORDS.vehicle.types, KEYWORDS.vehicle.brands, KEYWORDS.vehicle.related] false = none ∧
    containsKeyword "zzz.jpg"
      [KEYWORDS.pet.dogs, KEYWORDS.pet.cats, KEYWORDS.pet.others, KEYWORDS.pet.related] false
      = none ∧
    containsKeyword "zzz.jpg"
      [KEYWORDS.nature.landscapes, KEYWORDS.nature.water, KEYWORDS.nature.sky,
       KEYWORDS.nature.plants, KEYWORDS.nature.related] false = none ∧
    containsKeyword "zzz.jpg"
      [KEYWORDS.person.people, KEYWORDS.person.relationships, KEYWORDS.person.events,
       KEYWORDS.person.related] false = none ∧
    containsKeyword "zzz.jpg" [KEYWORDS.person.names] true = none ∧
    determineCategories [1] "zzz.jpg" = [classifyByEmbedding [1] "zzz.jpg"] ∧
    classifyByEmbedding [1] "zzz.jpg"
      ∈ (["nature", "pet", "person", "vehicle"] : List String) := by
  have h1 : containsKeyword "zzz.jpg"
      [KEYWORDS.vehicle.types, KEYWORDS.vehicle.brands, KEYWORDS.vehicle.related] false
      = none := by decide
  have h2 : containsKeyword "zzz.jpg"
      [KEYWORDS.pet.dogs, KEYWORDS.pet.cats, KEYWORDS.pet.others, KEYWORDS.pet.related] false
      = none := by decide
  have h3 : containsKeyword "zzz.jpg"
      [KEYWORDS.nature.landscapes, KEYWORDS.nature.water, KEYWORDS.nature.sky,
       KEYWORDS.nature.plants, KEYWORDS.nature.related] false = none := by decide
  have h4 : containsKeyword "zzz.jpg"
      [KEYWORDS.person.people, KEYWORDS.person.relationships, KEYWORDS.person.events,
       KEYWORDS.person.related] false = none := by decide
  have h5 : containsKeyword "zzz.jpg" [KEYWORDS.person.names] true = none := by decide
  have hmain := claim_C4 [1] "zzz.jpg" (by decide) h1 h2 h3 h4 h5
  exact ⟨by decide, h1, h2, h3, h4, h5, hmain.1, hmain.2.1⟩

theorem catBase_mem (b1 b2 b3 b4 : Bool) :
    ∀ c ∈ ((if b1 then ["vehicle"] else []) ++ (if b2 then ["pet"] else []) ++
           (if b3 then ["nature"] else []) ++ (if b4 then ["person"] else []) : List String),
      c ∈ (["vehicle", "pet", "nature", "person"] : List String) := by
  intro c hc
  simp only [List.mem_append] at hc
  rcases hc with (((h | h) | h) | h) <;> (split at h <;> simp_all)

theorem classifyByEmbedding_mem (embedding : List ℚ) (filename : String)
    (h : embedding ≠ []) :
    classifyByEmbedding embedding filename
      ∈ (["nature", "pet", "person", "vehicle"] : List String) := by
  unfold classifyByEmbedding
  rw [if_neg (by simpa [List.length_eq_zero] using h)]
  dsimp only
  split_ifs <;> decide

theorem determineCategories_spec (e : List ℚ) (fn : String) :
    determineCategories e fn = ["other"] ∨
    (determineCategories e fn ≠ [] ∧ "other" ∉ determineCategories e fn ∧
      ∀ c ∈ determineCategories e fn,
        c ∈ (["vehicle", "pet", "nature", "person"] : List String)) := by
  cases hv : (containsKeyword fn
      [KEYWORDS.vehicle.types, KEYWORDS.vehicle.brands, KEYWORDS.vehicle.related] false).isSome <;>
  cases hp : (containsKeyword fn
      [KEYWORDS.pet.dogs, KEYWORDS.pet.cats, KEYWORDS.pet.others, KEYWORDS.pet.related]
      false).isSome <;>
  cases hn : (containsKeyword fn
      [KEYWORDS.nature.landscapes, KEYWORDS.nature.water, KEYWORDS.nature.sky,
       KEYWORDS.nature.plants, KEYWORDS.nature.related] false).isSome <;>
  cases hpe : (containsKeyword fn
      [KEYWORDS.person.people, KEYWORDS.person.relationships, KEYWORDS.person.events,
       KEYWORDS.person.related] false).isSome <;>
  cases hnm : (containsKeyword fn [KEYWORDS.person.names] true).isSome
  case false.false.false.false.false =>
    by_cases hlen : e.length = 0
    · left
      simp [determineCategories, hv, hp, hn, hpe, hnm, hlen]
    · right
      have hne : e ≠ [] := by
        intro hcontra
        rw [hcontra] at hlen
        exact hlen rfl
      have h1 := classifyByEmbedding_ne_other e fn hne
      have h2 := classifyByEmbedding_mem e fn hne
      simp only [determineCategories, hv, hp, hn, hpe, hnm]
      simp [hlen, h1]
      simp at h2
      tauto
  all_goals
    right
    simp [determineCategories, hv, hp, hn, hpe, hnm]

theorem analyzeFilename_spec (fn : String) :
    (analyzeFilename fn).objects ≠ [] ∧
    ("uncategorized" ∈ (analyzeFilename fn).objects ↔
      ((analyzeFilename fn).vehicle = false ∧ (analyzeFilename fn).pets = false ∧
       (analyzeFilename fn).nature = false ∧ (analyzeFilename fn).person_id = none)) := by
  cases hv : (containsKeyword fn
      [KEYWORDS.vehicle.types, KEYWORDS.vehicle.brands, KEYWORDS.vehicle.related] false).isSome <;>
  cases hp : (containsKeyword fn
      [KEYWORDS.pet.dogs, KEYWORDS.pet.cats, KEYWORDS.pet.others, KEYWORDS.pet.related]
      false).isSome <;>
  cases hn : (containsKeyword fn
      [KEYWORDS.nature.landscapes, KEYWORDS.nature.water, KEYWORDS.nature.sky,
       KEYWORDS.nature.plants, KEYWORDS.nature.related] false).isSome <;>
  cases hpe : (containsKeyword fn
      [KEYWORDS.person.people, KEYWORDS.person.relationships, KEYWORDS.person.events,
       KEYWORDS.person.related] false).isSome <;>
  simp [analyzeFilename, hv, hp, hn, hpe]

theorem objects_mem_uncat (b1 b2 b3 b4 : Bool) (u : Prop) [Decidable u] :
    ("uncategorized" ∈ ((if b1 then ["vehicle"] else []) ++ (if b2 then ["animal"] else []) ++
        (if b3 then ["landscape", "outdoor"] else []) ++ (if b4 then ["portrait"] else []) ++
        (if u then ["uncategorized"] else []) : List String)) ↔ u := by
  by_cases hu : u <;> cases b1 <;> cases b2 <;> cases b3 <;> cases b4 <;> simp_all

theorem objects_ne_nil (b1 b2 b3 b4 : Bool) (u : Prop) [Decidable u]
    (h : b1 = true ∨ b2 = true ∨ b3 = true ∨ b4 = true ∨ u) :
    ((if b1 then ["vehicle"] else []) ++ (if b2 then ["animal"] else []) ++
        (if b3 then ["landscape", "outdoor"] else []) ++ (if b4 then ["portrait"] else []) ++
        (if u then ["uncategorized"] else []) : List String) ≠ [] := by
  by_cases hu : u <;> cases b1 <;> cases b2 <;> cases b3 <;> cases b4 <;> simp_all

theorem contains_true_of_mem {l : List String} {a : String} (h : a ∈ l) :
    l.contains a = true := by
  simpa [List.elem_iff] using h

theorem analyzeEmbedding_spec (e : List ℚ) (fn : String) (store : PersonStore) :
    (analyzeEmbedding e fn store).1.objects ≠ [] ∧
    ("uncategorized" ∈ (analyzeEmbedding e fn store).1.objects ↔
      ((analyzeEmbedding e fn store).1.vehicle = false ∧
       (analyzeEmbedding e fn store).1.pets = false ∧
       (analyzeEmbedding e fn store).1.nature = false ∧
       (analyzeEmbedding e fn store).1.person_id = none)) := by
  by_cases he : e.length = 0
  · simp only [analyzeEmbedding, if_pos he]
    exact analyzeFilename_spec fn
  · simp only [analyzeEmbedding, if_neg he]
    constructor
    · apply objects_ne_nil
      rcases determineCategories_spec e fn with hcats | ⟨hne', hnother, hmem⟩
      · right; right; right; right
        simp [hcats]
      · obtain ⟨c, hc⟩ := List.exists_mem_of_ne_nil _ hne'
        have hc4 := hmem c hc
        simp at hc4
        rcases hc4 with rfl | rfl | rfl | rfl
        · left; exact contains_true_of_mem hc
        · right; left; exact contains_true_of_mem hc
        · right; right; left; exact contains_true_of_mem hc
        · right; right; right; left; exact contains_true_of_mem hc
    · rw [objects_mem_uncat]
      rcases determineCategories_spec e fn with hcats | ⟨hne', hnother, hmem⟩
      · simp [hcats]
      · have hlen0 : ¬(determineCategories e fn).length = 0 := by
          simpa [List.length_eq_zero] using hne'
        have hco : ¬(determineCategories e fn).contains "other" = true := by
          intro hcon
          exact hnother (by simpa [List.elem_iff] using hcon)
        constructor
        · intro hu
          rcases hu with hu | ⟨hu1, hu2⟩
          · exact absurd hu hlen0
          · exact absurd hu2 hco
        · rintro ⟨hf1, hf2, hf3, hf4⟩
          exfalso
          obtain ⟨c, hc⟩ := List.exists_mem_of_ne_nil _ hne'
          have hc4 := hmem c hc
          simp at hc4
          rcases hc4 with rfl | rfl | rfl | rfl
          · simp at hf1
            exact hf1 hc
          · simp at hf2
            exact hf2 hc
          · simp at hf3
            exact hf3 hc
          · simp [contains_true_of_mem hc] at hf4
            exact hf4 hc

/-- Claim C8: for every embedding (including the empty one), filename and
registry state, the `AutoTags` produced by classification has a non-empty
`objects` list, and it contains `uncategorized` exactly when zero
categories matched (no flag set and no person id) — otherwise it holds at
least one descriptive token; `analyzeFilename` on its own satisfies the
same non-emptiness. -/
theorem claim_C8 (e : List ℚ) (fn : String) (store : PersonStore) :
    (analyzeEmbedding e fn store).1.objects ≠ [] ∧
    ("uncategorized" ∈ (analyzeEmbedding e fn store).1.objects ↔
      ((analyzeEmbedding e fn store).1.vehicle = false ∧
       (analyzeEmbedding e fn store).1.pets = false ∧
       (analyzeEmbedding e fn store).1.nature = false ∧
       (analyzeEmbedding e fn store).1.person_id = none)) ∧
    (analyzeFilename fn).objects ≠ [] :=
  ⟨(analyzeEmbedding_spec e fn store).1, (analyzeEmbedding_spec e fn store).2,
   (analyzeFilename_spec fn).1⟩

/-- Claim C6: for an embedding of length n ≥ 8, the signature has exactly
8 entries; entry i is the arithmetic mean of the contiguous segment
`[i*floor(n/8), (i+1)*floor(n/8))`; and the final partial remainder has no
influence — the signature of the embedding truncated to `8*floor(n/8)`
elements is identical. -/
theorem claim_C6 (e : List ℚ) (h : 8 ≤ e.length) :
    (generateEmbeddingSignature e).length = 8 ∧
    (∀ i, i < 8 →
      (generateEmbeddingSignature e).getD i none
        = some ((((e.drop (i * (e.length / 8))).take (e.length / 8)).sum
            / ((e.length / 8 : ℕ) : ℚ)))) ∧
    generateEmbeddingSignature e = generateEmbeddingSignature (e.take (8 * (e.length / 8))) := by
  have hs1 : 1 ≤ e.length / 8 := (Nat.le_div_iff_mul_le (by norm_num)).2 (by omega)
  have h8s : 8 * (e.length / 8) ≤ e.length := by
    have := Nat.div_mul_le_self e.length 8
    omega
  refine ⟨?_, ?_, ?_⟩
  · simp [generateEmbeddingSignature]
  · intro i hi
    have hseg : ((e.drop (i * (e.length / 8))).take (e.length / 8)).length = e.length / 8 := by
      rw [List.length_take, List.length_drop]
      have hi1 : (i + 1) * (e.length / 8) ≤ 8 * (e.length / 8) :=
        Nat.mul_le_mul_right _ (by omega)
      have hc : i * (e.length / 8) + e.length / 8 ≤ e.length := by
        calc i * (e.length / 8) + e.length / 8 = (i + 1) * (e.length / 8) := by ring
          _ ≤ 8 * (e.length / 8) := hi1
          _ ≤ e.length := h8s
      omega
    unfold generateEmbeddingSignature
    dsimp only
    rw [List.getD_eq_getElem?_getD, List.getElem?_map, List.getElem?_range hi]
    simp only [Option.map_some', Option.getD_some]
    rw [hseg, if_neg (by omega)]
  · unfold generateEmbeddingSignature
    have hlen' : (e.take (8 * (e.length / 8))).length = 8 * (e.length / 8) := by
      rw [List.length_take]
      omega
    have hs' : (e.take (8 * (e.length / 8))).length / 8 = e.length / 8 := by
      rw [hlen', Nat.mul_div_cancel_left _ (by norm_num)]
    rw [hs']
    apply List.map_congr_left
    intro i hi
    rw [List.mem_range] at hi
    have hi1 : (i + 1) * (e.length / 8) ≤ 8 * (e.length / 8) :=
      Nat.mul_le_mul_right _ (by omega)
    have hii : i * (e.length / 8) + e.length / 8 ≤ 8 * (e.length / 8) := by
      calc i * (e.length / 8) + e.length / 8 = (i + 1) * (e.length / 8) := by ring
        _ ≤ 8 * (e.length / 8) := hi1
    have hseg : ((e.take (8 * (e.length / 8))).drop (i * (e.length / 8))).take (e.length / 8)
        = (e.drop (i * (e.length / 8))).take (e.length / 8) := by
      rw [List.drop_take, List.take_take]
      congr 1
      omega
    rw [hseg]

/-- Claim C6, witness: a 9-element embedding (segment size 1, remainder
`[9]` dropped) produces the 8-element signature of its first 8 entries. -/
theorem claim_C6_witness :
    8 ≤ ([1, 2, 3, 4, 5, 6, 7, 8, 9] : List ℚ).length ∧
    (generateEmbeddingSignature ([1, 2, 3, 4, 5, 6, 7, 8, 9] : List ℚ)).length = 8 ∧
    generateEmbeddingSignature ([1, 2, 3, 4, 5, 6, 7, 8, 9] : List ℚ)
      = generateEmbeddingSignature
          (([1, 2, 3, 4, 5, 6, 7, 8, 9] : List ℚ).take
            (8 * (([1, 2, 3, 4, 5, 6, 7, 8, 9] : List ℚ).length / 8))) := by
  have h := claim_C6 ([1, 2, 3, 4, 5, 6, 7, 8, 9] : List ℚ) (by decide)
  exact ⟨by decide, h.1, h.2.2⟩

/-- Claim C7.  The claim requires signature computation on an embedding of
length < 8 to fail explicitly (`InvalidEmbedding`) or pad rather than
produce NaN values.  The source has no such guard: on the length-3
embedding `[1, 2, 3]` the segment size is 0, every segment is empty and
each of the 8 entries is `0 / 0`, i.e. NaN (`none` in this model) — the
NaN-producing branch is exactly what executes. -/
theorem claim_C7 :
    generateEmbeddingSignature [1, 2, 3] = List.replicate 8 none ∧
    ∀ q ∈ generateEmbeddingSignature [1, 2, 3], q = none := by
  exact ⟨by decide, by decide⟩


theorem allSome_map_some (l : List ℚ) : allSome (l.map some) = some l := by
  induction l with
  | nil => rfl
  | cons x xs ih => simp [allSome, ih]

theorem calculateSimilarity_eval (s1 s2 : List ℚ) (h : s1.length = s2.length) :
    calculateSimilarity (s1.map some) (s2.map some)
      = if 0 < Real.sqrt (((s1.map (fun x => x * x)).sum : ℚ) : ℝ) *
              Real.sqrt (((s2.map (fun x => x * x)).sum : ℚ) : ℝ)
        then (((List.zipWith (· * ·) s1 s2).sum : ℚ) : ℝ) /
             (Real.sqrt (((s1.map (fun x => x * x)).sum : ℚ) : ℝ) *
              Real.sqrt (((s2.map (fun x => x * x)).sum : ℚ) : ℝ))
        else 0 := by
  unfold calculateSimilarity
  rw [if_neg (by simp [h])]
  rw [allSome_map_some, allSome_map_some]

theorem calculateSimilarity_comm (s1 s2 : List (Option ℚ)) :
    calculateSimilarity s1 s2 = calculateSimilarity s2 s1 := by
  unfold calculateSimilarity
  by_cases h : s1.length = s2.length
  · rw [if_neg (fun hc => hc h), if_neg (fun hc => hc h.symm)]
    cases h1 : allSome s1 <;> cases h2 : allSome s2 <;>
      simp only [h1, h2] <;> try rfl
    rw [List.zipWith_comm_of_comm _ mul_comm, mul_comm (Real.sqrt _) (Real.sqrt _)]
  · rw [if_pos h, if_pos (fun hc => h hc.symm)]

example : generateEmbeddingSignature ([1,0,0,0,0,0,0,0] : List ℚ)
    = (([1,0,0,0,0,0,0,0] : List ℚ).map some) := by
  norm_num [List.range_succ, generateEmbeddingSignature]

example : calculateSimilarity (([1,0,0,0,0,0,0,0] : List ℚ).map some)
    ((([17,5,5,5,6,0,0,0] : List ℚ)).map some) = 17/20 := by
  rw [calculateSimilarity_eval _ _ (by norm_num)]
  have h1 : ((([1,0,0,0,0,0,0,0] : List ℚ).map (fun x => x * x)).sum : ℚ) = 1 := by norm_num
  have h2 : ((([17,5,5,5,6,0,0,0] : List ℚ).map (fun x => x * x)).sum : ℚ) = 400 := by
    norm_num
  have h3 : ((List.zipWith (· * ·) ([1,0,0,0,0,0,0,0] : List ℚ) [17,5,5,5,6,0,0,0]).sum : ℚ)
      = 17 := by norm_num [List.zipWith]
  rw [h1, h2, h3]
  have hs1 : Real.sqrt ((1 : ℚ) : ℝ) = 1 := by norm_num [Real.sqrt_one]
  have hs2 : Real.sqrt ((400 : ℚ) : ℝ) = 20 := by
    have hcast : ((400 : ℚ) : ℝ) = (20 : ℝ) ^ 2 := by norm_num
    rw [hcast, Real.sqrt_sq (by norm_num)]
  rw [hs1, hs2]
  norm_num

example : (findOrCreatePersonId [1,0,0,0,0,0,0,0] "a.jpg" []).1 = "person_0001" := rfl

example : (findOrCreatePersonId [1,0,0,0,0,0,0,0] "a.jpg" []).2
    = [("person_0001", generateEmbeddingSignature [1,0,0,0,0,0,0,0])] := rfl

/-- Claim C3, counterexample.  The claim asserts that signatures with
cosine similarity ≥ 0.85 resolve to the same personId.  The code's
comparison is strict (`similarity > 0.85`), so two embeddings whose
signatures have similarity exactly 0.85 — here `[1,0,…,0]` and
`[17,5,5,5,6,0,0,0]`, cosine 17/20 — mint two different identities. -/
theorem claim_C3_counterexample :
    calculateSimilarity (generateEmbeddingSignature [1, 0, 0, 0, 0, 0, 0, 0])
        (generateEmbeddingSignature [17, 5, 5, 5, 6, 0, 0, 0]) = 0.85 ∧
    (findOrCreatePersonId [1, 0, 0, 0, 0, 0, 0, 0] "a.jpg" []).1 = "person_0001" ∧
    (findOrCreatePersonId [17, 5, 5, 5, 6, 0, 0, 0] "b.jpg"
        (findOrCreatePersonId [1, 0, 0, 0, 0, 0, 0, 0] "a.jpg" []).2).1 = "person_0002" ∧
    ("person_0001" : String) ≠ "person_0002" := by
  have hsig1 : generateEmbeddingSignature ([1, 0, 0, 0, 0, 0, 0, 0] : List ℚ)
      = (([1, 0, 0, 0, 0, 0, 0, 0] : List ℚ).map some) := by
    norm_num [List.range_succ, generateEmbeddingSignature]
  have hsig2 : generateEmbeddingSignature ([17, 5, 5, 5, 6, 0, 0, 0] : List ℚ)
      = (([17, 5, 5, 5, 6, 0, 0, 0] : List ℚ).map some) := by
    norm_num [List.range_succ, generateEmbeddingSignature]
  have hsim : calculateSimilarity (generateEmbeddingSignature [1, 0, 0, 0, 0, 0, 0, 0])
      (generateEmbeddingSignature [17, 5, 5, 5, 6, 0, 0, 0]) = 0.85 := by
    rw [hsig1, hsig2, calculateSimilarity_eval _ _ (by norm_num)]
    have h1 : ((([1, 0, 0, 0, 0, 0, 0, 0] : List ℚ).map (fun x => x * x)).sum : ℚ) = 1 := by
      norm_num
    have h2 : ((([17, 5, 5, 5, 6, 0, 0, 0] : List ℚ).map (fun x => x * x)).sum : ℚ) = 400 := by
      norm_num
    have h3 : ((List.zipWith (· * ·) ([1, 0, 0, 0, 0, 0, 0, 0] : List ℚ)
        [17, 5, 5, 5, 6, 0, 0, 0]).sum : ℚ) = 17 := by norm_num [List.zipWith]
    rw [h1, h2, h3]
    have hs1 : Real.sqrt ((1 : ℚ) : ℝ) = 1 := by norm_num [Real.sqrt_one]
    have hs2 : Real.sqrt ((400 : ℚ) : ℝ) = 20 := by
      have hcast : ((400 : ℚ) : ℝ) = (20 : ℝ) ^ 2 := by norm_num
      rw [hcast, Real.sqrt_sq (by norm_num)]
    rw [hs1, hs2]
    norm_num
  have hv : calculateSimilarity (generateEmbeddingSignature [17, 5, 5, 5, 6, 0, 0, 0])
      (generateEmbeddingSignature [1, 0, 0, 0, 0, 0, 0, 0]) = 0.85 := by
    rw [calculateSimilarity_comm]
    exact hsim
  have hm : findMatchingPerson (generateEmbeddingSignature [17, 5, 5, 5, 6, 0, 0, 0])
      [("person_0001", generateEmbeddingSignature [1, 0, 0, 0, 0, 0, 0, 0])] = none := by
    rw [show findMatchingPerson (generateEmbeddingSignature [17, 5, 5, 5, 6, 0, 0, 0])
        [("person_0001", generateEmbeddingSignature [1, 0, 0, 0, 0, 0, 0, 0])]
        = if calculateSimilarity (generateEmbeddingSignature [17, 5, 5, 5, 6, 0, 0, 0])
              (generateEmbeddingSignature [1, 0, 0, 0, 0, 0, 0, 0]) > 0.85
          then some "person_0001"
          else findMatchingPerson (generateEmbeddingSignature [17, 5, 5, 5, 6, 0, 0, 0]) []
        from rfl]
    rw [if_neg (by rw [hv]; norm_num)]
    rfl
  refine ⟨hsim, rfl, ?_, by decide⟩
  show (findOrCreatePersonId [17, 5, 5, 5, 6, 0, 0, 0] "b.jpg"
      [("person_0001", generateEmbeddingSignature [1, 0, 0, 0, 0, 0, 0, 0])]).1 = "person_0002"
  simp only [findOrCreatePersonId, hm]
  rfl

/-- Claim C3, amended: starting from an empty registry, the first resolve
mints `person_0001`; a second embedding resolves to the same identity
exactly when the signatures' cosine similarity STRICTLY exceeds the 0.85
threshold, and otherwise (similarity ≤ 0.85, including exactly 0.85) mints
the distinct `person_0002` — ids in increasing order of first appearance,
scanning the registry in insertion order. -/
theorem claim_C3_amended (e1 e2 : List ℚ) (fn1 fn2 : String) :
    (findOrCreatePersonId e1 fn1 []).1 = "person_0001" ∧
    (findOrCreatePersonId e1 fn1 []).2
      = [("person_0001", generateEmbeddingSignature e1)] ∧
    (calculateSimilarity (generateEmbeddingSignature e1) (generateEmbeddingSignature e2)
        > 0.85 →
      (findOrCreatePersonId e2 fn2 (findOrCreatePersonId e1 fn1 []).2).1 = "person_0001") ∧
    (calculateSimilarity (generateEmbeddingSignature e1) (generateEmbeddingSignature e2)
        ≤ 0.85 →
      (findOrCreatePersonId e2 fn2 (findOrCreatePersonId e1 fn1 []).2).1 = "person_0002" ∧
      (findOrCreatePersonId e2 fn2 (findOrCreatePersonId e1 fn1 []).2).1 ≠ "person_0001") := by
  have h2 : (findOrCreatePersonId e1 fn1 []).2
      = [("person_0001", generateEmbeddingSignature e1)] := rfl
  refine ⟨rfl, h2, ?_, ?_⟩
  · intro hgt
    have hgt' : calculateSimilarity (generateEmbeddingSignature e2)
        (generateEmbeddingSignature e1) > 0.85 := by
      rw [calculateSimilarity_comm]
      exact hgt
    rw [h2]
    have hm : findMatchingPerson (generateEmbeddingSignature e2)
        [("person_0001", generateEmbeddingSignature e1)] = some "person_0001" := by
      rw [show findMatchingPerson (generateEmbeddingSignature e2)
          [("person_0001", generateEmbeddingSignature e1)]
          = if calculateSimilarity (generateEmbeddingSignature e2)
                (generateEmbeddingSignature e1) > 0.85
            then some "person_0001"
            else findMatchingPerson (generateEmbeddingSignature e2) []
          from rfl]
      rw [if_pos hgt']
    simp only [findOrCreatePersonId, hm]
  · intro hle
    have hle' : ¬(calculateSimilarity (generateEmbeddingSignature e2)
        (generateEmbeddingSignature e1) > 0.85) := by
      rw [calculateSimilarity_comm]
      exact not_lt.mpr hle
    rw [h2]
    have hm : findMatchingPerson (generateEmbeddingSignature e2)
        [("person_0001", generateEmbeddingSignature e1)] = none := by
      rw [show findMatchingPerson (generateEmbeddingSignature e2)
          [("person_0001", generateEmbeddingSignature e1)]
          = if calculateSimilarity (generateEmbeddingSignature e2)
                (generateEmbeddingSignature e1) > 0.85
            then some "person_0001"
            else findMatchingPerson (generateEmbeddingSignature e2) []
          from rfl]
      rw [if_neg hle']
      rfl
    constructor
    · simp only [findOrCreatePersonId, hm]
      show "person_" ++ padStart (toString (1 + 1)) 4 '0' = "person_0002"
      rfl
    · simp only [findOrCreatePersonId, hm]
      show "person_" ++ padStart (toString (1 + 1)) 4 '0' ≠ "person_0001"
      decide

/-- Claim C3, witness: `[1,0,…,0]` and `[2,0,…,0]` have cosine similarity
1 > 0.85, and the second resolve reuses `person_0001`. -/
theorem claim_C3_witness :
    calculateSimilarity (generateEmbeddingSignature [1, 0, 0, 0, 0, 0, 0, 0])
        (generateEmbeddingSignature [2, 0, 0, 0, 0, 0, 0, 0]) > 0.85 ∧
    (findOrCreatePersonId [2, 0, 0, 0, 0, 0, 0, 0] "b.jpg"
        (findOrCreatePersonId [1, 0, 0, 0, 0, 0, 0, 0] "a.jpg" []).2).1 = "person_0001" := by
  have hsig1 : generateEmbeddingSignature ([1, 0, 0, 0, 0, 0, 0, 0] : List ℚ)
      = (([1, 0, 0, 0, 0, 0, 0, 0] : List ℚ).map some) := by
    norm_num [List.range_succ, generateEmbeddingSignature]
  have hsig2 : generateEmbeddingSignature ([2, 0, 0, 0, 0, 0, 0, 0] : List ℚ)
      = (([2, 0, 0, 0, 0, 0, 0, 0] : List ℚ).map some) := by
    norm_num [List.range_succ, generateEmbeddingSignature]
  have hsim : calculateSimilarity (generateEmbeddingSignature [1, 0, 0, 0, 0, 0, 0, 0])
      (generateEmbeddingSignature [2, 0, 0, 0, 0, 0, 0, 0]) = 1 := by
    rw [hsig1, hsig2, calculateSimilarity_eval _ _ (by norm_num)]
    have h1 : ((([1, 0, 0, 0, 0, 0, 0, 0] : List ℚ).map (fun x => x * x)).sum : ℚ) = 1 := by
      norm_num
    have h2 : ((([2, 0, 0, 0, 0, 0, 0, 0] : List ℚ).map (fun x => x * x)).sum : ℚ) = 4 := by
      norm_num
    have h3 : ((List.zipWith (· * ·) ([1, 0, 0, 0, 0, 0, 0, 0] : List ℚ)
        [2, 0, 0, 0, 0, 0, 0, 0]).sum : ℚ) = 2 := by norm_num [List.zipWith]
    rw [h1, h2, h3]
    have hs1 : Real.sqrt ((1 : ℚ) : ℝ) = 1 := by norm_num [Real.sqrt_one]
    have hs2 : Real.sqrt ((4 : ℚ) : ℝ) = 2 := by
      have hcast : ((4 : ℚ) : ℝ) = (2 : ℝ) ^ 2 := by norm_num
      rw [hcast, Real.sqrt_sq (by norm_num)]
    rw [hs1, hs2]
    norm_num
  have hgt : calculateSimilarity (generateEmbeddingSignature [1, 0, 0, 0, 0, 0, 0, 0])
      (generateEmbeddingSignature [2, 0, 0, 0, 0, 0, 0, 0]) > 0.85 := by
    rw [hsim]
    norm_num
  exact ⟨hgt,
    (claim_C3_amended [1, 0, 0, 0, 0, 0, 0, 0] [2, 0, 0, 0, 0, 0, 0, 0]
      "a.jpg" "b.jpg").2.2.1 hgt⟩
